import Mathlib

/-!
Shallow embedding of the coordinate-normalization and analysis pipeline of
`src/app.py` (geomoka-streamlit), together with proofs of the specification
claims about it.

Python values relevant to the pipeline (numbers, strings, lists/tuples,
dicts, None) are modelled by the inductive type `PyVal`.  Numbers (`int` and
`float` alike) are modelled as rationals; a string carries its text and,
when Python's `float()` would parse it, the parsed value.  Python functions
that can raise are modelled as `Option`-valued: `none` is an uncaught
exception (or, where the source itself returns `None`, that `None` — each
definition's comment says which).
-/

/-- Model of the Python values flowing through the coordinate pipeline.
`num` covers `int`/`float`; `str s v` is a string with text `s` whose
`float()` coercion is `v` (`none` when `float(s)` raises); `list` covers
`list`/`tuple`; `dict` is a dict in insertion order with string keys. -/
inductive PyVal where
  | num : Rat → PyVal
  | str : String → Option Rat → PyVal
  | null : PyVal
  | list : List PyVal → PyVal
  | dict : List (String × PyVal) → PyVal

/-- Python `float(x)`: succeeds on numbers and numeric strings. -/
def pyFloat : PyVal → Option Rat
  | .num r => some r
  | .str _ v => v
  | _ => none

/-- Python `isinstance(x, (int, float, str))`. -/
def isScalar : PyVal → Bool
  | .num _ => true
  | .str _ _ => true
  | _ => false

/-- Python truthiness of a value (`if x:`). -/
def pyTruthy : PyVal → Bool
  | .num r => r ≠ 0
  | .str s _ => s ≠ ""
  | .null => false
  | .list xs => ¬ xs.isEmpty
  | .dict kvs => ¬ kvs.isEmpty

/-- Python `d.get(k)` on a dict body: first binding of `k`, if any. -/
def dictGet (kvs : List (String × PyVal)) (k : String) : Option PyVal :=
  (kvs.find? (fun p => p.1 = k)).map (fun p => p.2)

/-- Python `d[k] = v` on a dict body: replace the binding of `k` in place,
or append a fresh binding at the end (dict insertion order). -/
def dictSet (kvs : List (String × PyVal)) (k : String) (v : PyVal) :
    List (String × PyVal) :=
  if kvs.any (fun p => p.1 = k) then
    kvs.map (fun p => if p.1 = k then (k, v) else p)
  else kvs ++ [(k, v)]

/-- Python `x == lit` for a string literal `lit`: true only for a string
with the same text (no builtin type here compares equal to a `str`). -/
def pyEqStr (v : PyVal) (lit : String) : Bool :=
  match v with
  | .str t _ => t = lit
  | _ => false

/-- Python `lit in container` for a string literal: key lookup on a dict,
element equality on a list, substring test on a string; anything else
raises (`none`). -/
def pyContains (container : PyVal) (lit : String) : Option Bool :=
  match container with
  | .dict kvs => some (kvs.any (fun p => p.1 = lit))
  | .list xs => some (xs.any (fun x => pyEqStr x lit))
  | .str s _ => some ((s.splitOn lit).length ≠ 1)
  | _ => none

/-- Python iteration `for x in v`: elements of a list, keys of a dict,
characters of a string; anything else raises (`none`). -/
def pyIter : PyVal → Option (List PyVal)
  | .list xs => some xs
  | .dict kvs => some (kvs.map (fun p => .str p.1 none))
  | .str s _ => some (s.toList.map (fun c => .str (String.singleton c) none))
  | _ => none

/-! Indonesia bounding envelope, `app.py` lines 25-26. -/

def LAT_MIN : Rat := -23/2
def LAT_MAX : Rat := 13/2
def LON_MIN : Rat := 94
def LON_MAX : Rat := 283/2

/-- Function `looks_like_latlon` (`app.py` 110-120): true iff the value is a
list/tuple of at least two elements whose first two coerce via `float()`
to `a ∈ [LAT_MIN, LAT_MAX]` and `b ∈ [LON_MIN, LON_MAX]`.  The Python
`try/except` makes it total: it never raises. -/
def looks_like_latlon : PyVal → Bool
  | .list (x :: y :: _) =>
    match pyFloat x, pyFloat y with
    | some a, some b =>
      decide (LAT_MIN ≤ a) && decide (a ≤ LAT_MAX) &&
      decide (LON_MIN ≤ b) && decide (b ≤ LON_MAX)
    | _, _ => false
  | _ => false

/-- The leaf-candidate test of `swap_xy_in_coords`
(`len(obj) >= 2 and all(isinstance(x, (int, float, str)) for x in obj[:2])`). -/
def leafCandidate : List PyVal → Bool
  | x :: y :: _ => isScalar x && isScalar y
  | _ => false

/-- The per-element coercion of the no-swap leaf branch
(`float(x) if isinstance(x, str) else x`): a coercible string becomes its
number, a non-coercible string raises, everything else is kept as is. -/
def coerceStr : PyVal → Option PyVal
  | .str _ (some v) => some (.num v)
  | .str _ none => none
  | v => some v

mutual

/-- Function `swap_xy_in_coords` (`app.py` 122-145): recursively swap `[lat, lon]`
leaf pairs to `[lon, lat]` in a GeoJSON coordinate structure.  `none`
models an uncaught exception (a `float()` call failing on a
non-coercible element). -/
def swap_xy_in_coords : PyVal → Option PyVal
  | .list xs =>
    if leafCandidate xs then
      if looks_like_latlon (.list xs) then
        match xs with
        | x :: y :: rest =>
          match pyFloat x, pyFloat y, restFloats rest with
          | some a, some b, some fr =>
            some (.list (.num b :: .num a :: fr.map .num))
          | _, _, _ => none
        | _ => none
      else
        (coerceList xs).map .list
    else
      (swapList xs).map .list
  | .dict kvs => (swapDict kvs).map .dict
  | v => some v

/-- Comprehension `[float(x) for x in obj[2:]]` of the swap branch. -/
def restFloats : List PyVal → Option (List Rat)
  | [] => some []
  | x :: xs =>
    match pyFloat x, restFloats xs with
    | some a, some as' => some (a :: as')
    | _, _ => none

/-- Comprehension `[float(x) if isinstance(x, str) else x for x in obj]` of the
no-swap leaf branch. -/
def coerceList : List PyVal → Option (List PyVal)
  | [] => some []
  | x :: xs =>
    match coerceStr x, coerceList xs with
    | some y, some ys => some (y :: ys)
    | _, _ => none

/-- Element-wise recursion of `swap_xy_in_coords` over a container. -/
def swapList : List PyVal → Option (List PyVal)
  | [] => some []
  | x :: xs =>
    match swap_xy_in_coords x, swapList xs with
    | some y, some ys => some (y :: ys)
    | _, _ => none

/-- Dict branch of `swap_xy_in_coords`: every value is normalized except
the one under a `"type"` key, which passes through verbatim. -/
def swapDict : List (String × PyVal) → Option (List (String × PyVal))
  | [] => some []
  | (k, v) :: kvs =>
    match (if k = "type" then some v else swap_xy_in_coords v), swapDict kvs with
    | some w, some ws => some ((k, w) :: ws)
    | _, _ => none

end

/-- Function `swap_geometry` (`app.py` 147-158): normalize the `geometry` of one
feature.  A non-dict feature raises on `.get` (`none`); a falsy or
type/coordinates-less geometry leaves the feature untouched; otherwise the
geometry is rebuilt as `{"type": gtype, "coordinates": normalized}`. -/
def swap_geometry (feature : PyVal) : Option PyVal :=
  match feature with
  | .dict kvs =>
    let geom := (dictGet kvs "geometry").getD .null
    if pyTruthy geom = false then some (.dict kvs)
    else
      match pyContains geom "type" with
      | none => none
      | some false => some (.dict kvs)
      | some true =>
        match pyContains geom "coordinates" with
        | none => none
        | some false => some (.dict kvs)
        | some true =>
          match geom with
          | .dict gkvs =>
            match dictGet gkvs "type", dictGet gkvs "coordinates" with
            | some gtype, some coords =>
              match swap_xy_in_coords coords with
              | some newCoords =>
                some (.dict (dictSet kvs "geometry"
                  (.dict [("type", gtype), ("coordinates", newCoords)])))
              | none => none
            | _, _ => none
          -- `geom["type"]` on a non-dict container raises
          | _ => none
  | _ => none

/-- Comprehension `[swap_geometry(f) for f in feats]`. -/
def featuresList : List PyVal → Option (List PyVal)
  | [] => some []
  | f :: fs =>
    match swap_geometry f, featuresList fs with
    | some g, some gs => some (g :: gs)
    | _, _ => none

/-- Function `swap_featurecollection` (`app.py` 160-165): anything that is not a
dict with `type == "FeatureCollection"` is returned as is; otherwise
`fc["features"]` is overwritten with the per-feature normalization of
`fc.get("features", [])` (so a missing key becomes an empty list). -/
def swap_featurecollection (fc : PyVal) : Option PyVal :=
  match fc with
  | .dict kvs =>
    if pyEqStr ((dictGet kvs "type").getD .null) "FeatureCollection" = false then
      some (.dict kvs)
    else
      let feats := (dictGet kvs "features").getD (.list [])
      match pyIter feats with
      | none => none
      | some items =>
        match featuresList items with
        | none => none
        | some newFeats =>
          some (.dict (dictSet kvs "features" (.list newFeats)))
  | v => some v

/-- Python `x == 200`-style comparison of a value with a number literal:
true only for an equal number (no other builtin type here compares equal). -/
def pyEqNum (v : PyVal) (n : Rat) : Bool :=
  match v with
  | .num r => r = n
  | _ => false

/-- Outcome of the `requests.get(...)` + `raise_for_status` + `.json()`
prelude of `fetch_region_geometry`: a request/HTTP-status failure, a JSON
parse failure, or a parsed body. -/
inductive HttpOutcome where
  | fail : HttpOutcome
  | badJson : HttpOutcome
  | json : PyVal → HttpOutcome

/-- Function `fetch_region_geometry` (`app.py` 167-185), as a function of the HTTP
outcome for the requested endpoint/code.  The whole body sits in a
`try/except` that returns `None`, so every failure — network error,
non-2xx status, parse error, a non-dict body, non-200 `meta.code`,
missing/falsy `data.region`, or an exception inside
`swap_featurecollection` — yields `none`; a successful region is returned
after passing through `swap_featurecollection`. -/
def fetch_region_geometry (resp : HttpOutcome) : Option PyVal :=
  match resp with
  | .fail => none
  | .badJson => none
  | .json result =>
    match result with
    | .dict kvs =>
      match (dictGet kvs "meta").getD (.dict []) with
      | .dict mkvs =>
        if pyEqNum ((dictGet mkvs "code").getD .null) 200 then
          match (dictGet kvs "data").getD (.dict []) with
          | .dict dkvs =>
            let region := (dictGet dkvs "region").getD .null
            if pyTruthy region = false then none
            else
              match pyContains region "features" with
              | none => none
              | some false => none
              | some true => swap_featurecollection region
          -- `result.get("data", {}).get("region")` raises on a non-dict
          | _ => none
        else none
      -- `.get("code")` raises on a non-dict `meta`
      | _ => none
    -- `result.get` raises on a non-dict body
    | _ => none

/-! Conversion of an API FeatureCollection to the AOI geometry and the
attribute table, `geojson_to_ee_geometry` (`app.py` 187-213).  The
geopandas/earthengine boundary is modelled by value-level wrappers: the
GeoDataFrame keeps the feature dicts it was built from plus its CRS, and
an `ee.Geometry` keeps the GeoJSON geometry it was constructed from
(validation and reprojection happen inside those external libraries). -/

/-- Model of a `gpd.GeoDataFrame` built with `from_features`. -/
structure GeoDataFrame where
  features : List PyVal
  crs : Option String

/-- Model of an `ee.Geometry`: the GeoJSON value it was constructed from. -/
structure EEGeometry where
  geojson : PyVal

def isDictVal : PyVal → Bool
  | .dict _ => true
  | _ => false

/-- Call `gpd.GeoDataFrame.from_features(feats)`: accepts a list of feature
dicts and keeps them as the attribute table with no CRS; anything else
raises inside geopandas (`none`). -/
def gpdFromFeatures (feats : PyVal) : Option GeoDataFrame :=
  match feats with
  | .list fs => if fs.all isDictVal then some ⟨fs, none⟩ else none
  | _ => none

/-- Call `gdf.to_crs(c)`: reprojection of the geometry column happens inside
geopandas; the model records the new CRS. -/
def gdfToCrs (g : GeoDataFrame) (c : String) : GeoDataFrame :=
  ⟨g.features, some c⟩

/-- Function `geojson_to_ee_geometry` (`app.py` 187-213): falsy or feature-less
input (or any exception inside the `try`, e.g. a malformed feature list
or a first feature without `"geometry"`) yields `(None, None)` (`none`);
otherwise the EE geometry is built from the **first** feature's geometry
and the GeoDataFrame from **all** features, with the CRS forced to
EPSG:4326. -/
def geojson_to_ee_geometry (geojson_data : PyVal) :
    Option (EEGeometry × GeoDataFrame) :=
  if pyTruthy geojson_data = false then none
  else
    match pyContains geojson_data "features" with
    | none => none
    | some false => none
    | some true =>
      match geojson_data with
      | .dict kvs =>
        match dictGet kvs "features" with
        | none => none
        | some feats =>
          match gpdFromFeatures feats with
          | none => none
          | some gdf0 =>
            if gdf0.features.isEmpty then none
            else
              let gdf :=
                if gdf0.crs = none then { gdf0 with crs := some "EPSG:4326" }
                else if gdf0.crs ≠ some "EPSG:4326" then gdfToCrs gdf0 "EPSG:4326"
                else gdf0
              match feats with
              | .list (f :: _) =>
                match f with
                | .dict fkvs =>
                  match dictGet fkvs "geometry" with
                  | some g => some (⟨g⟩, gdf)
                  | none => none
                | _ => none
              | _ => none
      -- `geojson_data["features"]` raises on a non-dict container
      | _ => none

/-! The administrative-selection AOI mode (`app.py` 554-666).  The script
is a cascade of selectboxes; the model below records, for given dropdown
data and selections, the `fetch_region_geometry` calls (endpoint, code)
the cascade issues.  `fetch_region_dropdown` calls are lookups, not
geometry fetches, and are represented by the dropdown-data inputs.  The
selectbox guarantees a chosen name is a key of its dropdown data; an
unknown name is modelled as issuing nothing. -/

def lookupStr {α : Type} (tbl : List (String × α)) (k : String) : Option α :=
  (tbl.find? (fun p => p.1 = k)).map (fun p => p.2)

/-- The four selectbox values of the admin cascade (placeholder sentinels
such as `"-- Pilih Provinsi --"` are legitimate values). -/
structure AdminSelections where
  province : String
  city : String
  district : String
  village : String

/-- Geometry fetches issued by the admin cascade (`app.py` 554-666), in
order, as (endpoint, code) pairs. -/
def admin_geometry_fetches
    (provData cityData districtData villageData : List (String × String))
    (sel : AdminSelections) : List (String × String) :=
  if provData.isEmpty then []
  else if sel.province = "-- Pilih Provinsi --" then []
  else
    match lookupStr provData sel.province with
    | none => []
    | some province_code =>
      if cityData.isEmpty then []
      else if sel.city = "-- Gunakan Provinsi --" then
        [("province", province_code)]
      else if sel.city = "-- Pilih Kabupaten/Kota --" then []
      else
        match lookupStr cityData sel.city with
        | none => []
        | some city_code =>
          if districtData.isEmpty then []
          else if sel.district = "-- Gunakan Kabupaten/Kota --" then
            [("city", city_code)]
          else if sel.district = "-- Pilih Kecamatan --" then []
          else
            match lookupStr districtData sel.district with
            | none => []
            | some district_code =>
              if villageData.isEmpty then []
              else if sel.village = "-- Gunakan Kecamatan --" then
                [("district", district_code)]
              else if sel.village = "-- Pilih Kelurahan/Desa --" then []
              else
                match lookupStr villageData sel.village with
                | none => []
                | some village_code => [("village", village_code)]

/-! Index engine (`app.py` 269-368).  Earth Engine images are modelled at
the level of a single pixel: a composite assigns each band name a value,
and the band-math methods used by `calculate_index` (`select`,
`subtract`, `add`, `multiply`, `divide`, `normalizedDifference`,
`rename`) are value functions producing a single named band.  Division
is rational-field division; EE's masking of zero denominators is outside
this per-pixel value model. -/

/-- A multispectral composite: per-band pixel value. -/
structure EEImage where
  pix : String → Rat

/-- A single-band image: its band name and pixel value. -/
structure EEBand where
  name : String
  val : Rat

def EEImage.select (img : EEImage) (b : String) : EEBand := ⟨b, img.pix b⟩

def EEBand.subtract (x y : EEBand) : EEBand := ⟨x.name, x.val - y.val⟩

def EEBand.add (x y : EEBand) : EEBand := ⟨x.name, x.val + y.val⟩

/-- EE `add` with a constant operand (e.g. `.add(1)`). -/
def EEBand.addNum (x : EEBand) (c : Rat) : EEBand := ⟨x.name, x.val + c⟩

/-- EE `multiply` with a constant operand (e.g. `.multiply(2.5)`). -/
def EEBand.multiplyNum (x : EEBand) (c : Rat) : EEBand := ⟨x.name, x.val * c⟩

def EEBand.divide (x y : EEBand) : EEBand := ⟨x.name, x.val / y.val⟩

def EEBand.rename (x : EEBand) (n : String) : EEBand := ⟨n, x.val⟩

/-- EE `image.normalizedDifference([b1, b2])`: `(b1 − b2) / (b1 + b2)`,
producing a band named `"nd"`. -/
def EEImage.normalizedDifference (img : EEImage) (bands : List String) :
    Option EEBand :=
  match bands with
  | [b1, b2] => some ⟨"nd", (img.pix b1 - img.pix b2) / (img.pix b1 + img.pix b2)⟩
  | _ => none

/-- One entry of the `VEGETATION_INDICES` catalog (`app.py` 269-334). -/
structure IndexInfo where
  name : String
  formula : String
  bands : List String
  range : Rat × Rat
  description : String
  palette : List String

/-- The immutable 8-entry index catalog, `app.py` 269-334. -/
def VEGETATION_INDICES : List (String × IndexInfo) :=
  [ ("NDVI", ⟨"Normalized Difference Vegetation Index",
      "(NIR - RED) / (NIR + RED)", ["B8", "B4"], (-1, 1),
      "Kesehatan vegetasi umum",
      ["#8B4513", "#FFFF00", "#90EE90", "#006400"]⟩),
    ("NDWI", ⟨"Normalized Difference Water Index",
      "(GREEN - NIR) / (GREEN + NIR)", ["B3", "B8"], (-1, 1),
      "Kandungan air pada vegetasi",
      ["#8B4513", "#F5DEB3", "#87CEEB", "#0000FF"]⟩),
    ("MNDWI", ⟨"Modified NDWI",
      "(GREEN - SWIR) / (GREEN + SWIR)", ["B3", "B11"], (-1, 1),
      "Deteksi badan air",
      ["#FFFFE0", "#98FB98", "#4682B4", "#000080"]⟩),
    ("NDBI", ⟨"Normalized Difference Built-up Index",
      "(SWIR - NIR) / (SWIR + NIR)", ["B11", "B8"], (-1, 1),
      "Area terbangun",
      ["#006400", "#90EE90", "#FFD700", "#FF0000"]⟩),
    ("EVI", ⟨"Enhanced Vegetation Index",
      "2.5 * (NIR - RED) / (NIR + 6*RED - 7.5*BLUE + 1)", ["B8", "B4", "B2"],
      (-1, 1), "Vegetasi dengan koreksi atmosfer",
      ["#8B4513", "#FFFF00", "#90EE90", "#006400"]⟩),
    ("SAVI", ⟨"Soil Adjusted Vegetation Index",
      "1.5 * (NIR - RED) / (NIR + RED + 0.5)", ["B8", "B4"], (-1, 1),
      "Vegetasi dengan koreksi tanah",
      ["#8B4513", "#FFFF00", "#90EE90", "#006400"]⟩),
    ("BSI", ⟨"Bare Soil Index",
      "(SWIR + RED - NIR - BLUE) / (SWIR + RED + NIR + BLUE)",
      ["B11", "B4", "B8", "B2"], (-1, 1), "Tanah terbuka",
      ["#006400", "#90EE90", "#DEB887", "#8B4513"]⟩),
    ("NDMI", ⟨"Normalized Difference Moisture Index",
      "(NIR - SWIR) / (NIR + SWIR)", ["B8", "B11"], (-1, 1),
      "Kelembaban vegetasi",
      ["#8B4513", "#D2691E", "#90EE90", "#006400"]⟩) ]

/-- Function `calculate_index` (`app.py` 336-368).  `VEGETATION_INDICES[index_name]`
raises `KeyError` on an unknown name (`none`); EVI, SAVI and BSI have
dedicated band-math branches, every other catalog index goes through
`normalizedDifference` on its two catalog bands, and the result is
renamed to the index name. -/
def calculate_index (image : EEImage) (index_name : String) : Option EEBand :=
  match lookupStr VEGETATION_INDICES index_name with
  | none => none
  | some index_info =>
    if index_name = "EVI" then
      let nir := image.select "B8"
      let red := image.select "B4"
      let blue := image.select "B2"
      let evi := ((nir.subtract red).multiplyNum 2.5).divide
        (((nir.add (red.multiplyNum 6)).subtract (blue.multiplyNum (15/2))).addNum 1)
      some (evi.rename index_name)
    else if index_name = "SAVI" then
      let nir := image.select "B8"
      let red := image.select "B4"
      let savi := ((nir.subtract red).divide ((nir.add red).addNum (1/2))).multiplyNum (3/2)
      some (savi.rename index_name)
    else if index_name = "BSI" then
      let blue := image.select "B2"
      let red := image.select "B4"
      let nir := image.select "B8"
      let swir := image.select "B11"
      let bsi := (((swir.add red).subtract nir).subtract blue).divide
        (((swir.add red).add nir).add blue)
      some (bsi.rename index_name)
    else
      (image.normalizedDifference index_info.bands).map
        (fun b => b.rename index_name)

/-! Land-cover statistics (`app.py` 373-410 and 1094-1145). -/

/-- One legend entry: display color and label. -/
structure LegendEntry where
  color : String
  label : String

/-- Table `LAND_COVER_LEGENDS["ESA_WorldCover"]` (`app.py` 374-386). -/
def ESA_WorldCover_legend : List (String × LegendEntry) :=
  [ ("10", ⟨"#006400", "Trees"⟩),
    ("20", ⟨"#ffbb22", "Shrubland"⟩),
    ("30", ⟨"#ffff4c", "Grassland"⟩),
    ("40", ⟨"#f096ff", "Cropland"⟩),
    ("50", ⟨"#fa0000", "Built-up"⟩),
    ("60", ⟨"#b4b4b4", "Barren/sparse vegetation"⟩),
    ("70", ⟨"#f0f0f0", "Snow and ice"⟩),
    ("80", ⟨"#0032c8", "Open water"⟩),
    ("90", ⟨"#0096a0", "Herbaceous wetland"⟩),
    ("95", ⟨"#00cf75", "Mangroves"⟩),
    ("100", ⟨"#fae6a0", "Moss and lichen"⟩) ]

/-- Table `LAND_COVER_LEGENDS["ESRI_LandCover"]` (`app.py` 387-398). -/
def ESRI_LandCover_legend : List (String × LegendEntry) :=
  [ ("1", ⟨"#1A5BAB", "Water"⟩),
    ("2", ⟨"#358221", "Trees"⟩),
    ("3", ⟨"#A7D282", "Grass"⟩),
    ("4", ⟨"#87D19E", "Flooded Vegetation"⟩),
    ("5", ⟨"#FFDB5C", "Crops"⟩),
    ("6", ⟨"#EECFA8", "Scrub/Shrub"⟩),
    ("7", ⟨"#ED022A", "Built Area"⟩),
    ("8", ⟨"#EDE9E4", "Bare Ground"⟩),
    ("9", ⟨"#F2FAFF", "Snow/Ice"⟩),
    ("10", ⟨"#C8C8C8", "Clouds"⟩) ]

/-- Table `LAND_COVER_LEGENDS["Dynamic_World"]` (`app.py` 399-409). -/
def Dynamic_World_legend : List (String × LegendEntry) :=
  [ ("0", ⟨"#419BDF", "Water"⟩),
    ("1", ⟨"#397D49", "Trees"⟩),
    ("2", ⟨"#88B053", "Grass"⟩),
    ("3", ⟨"#7A87C6", "Flooded vegetation"⟩),
    ("4", ⟨"#E49635", "Crops"⟩),
    ("5", ⟨"#DFC35A", "Shrub & Scrub"⟩),
    ("6", ⟨"#C4281B", "Built Area"⟩),
    ("7", ⟨"#A59B8F", "Bare ground"⟩),
    ("8", ⟨"#B39FE1", "Snow & Ice"⟩) ]

/-- Table `LAND_COVER_LEGENDS` (`app.py` 373-410). -/
def LAND_COVER_LEGENDS : List (String × List (String × LegendEntry)) :=
  [ ("ESA_WorldCover", ESA_WorldCover_legend),
    ("ESRI_LandCover", ESRI_LandCover_legend),
    ("Dynamic_World", Dynamic_World_legend) ]

/-- Python `round` for rationals: round half to even (banker's rounding).
The source applies it to binary floats; this model rounds the exact
rational. -/
def roundHalfEven (x : Rat) : Int :=
  let f := Int.floor x
  if x - f < 1/2 then f
  else if x - f > 1/2 then f + 1
  else if f % 2 = 0 then f else f + 1

/-- Python `round(x, n)`. -/
def pyRound (x : Rat) (n : Nat) : Rat :=
  ((roundHalfEven (x * 10 ^ n) : Int) : Rat) / 10 ^ n

/-- Per-dataset configuration of the statistics loop (`app.py`
1103-1114): band name, legend, and reduction scale in meters. -/
structure LCConfig where
  band_name : String
  legend : List (String × LegendEntry)
  scale : Rat

/-- The `if lc_name == ...` configuration block of the statistics loop
(`app.py` 1103-1114): Dynamic World reduces at scale 30 on
`label_mode`/`label` (depending on the Dynamic World mode), ESA
WorldCover at scale 10 on `Map`, ESRI Land Cover at scale 10 on `b1`. -/
def lcStatConfig (lc_name : String) (dw_mode : String) : LCConfig :=
  if lc_name = "Dynamic World" then
    ⟨if dw_mode = "mode" then "label_mode" else "label", Dynamic_World_legend, 30⟩
  else if lc_name = "ESA WorldCover" then
    ⟨"Map", ESA_WorldCover_legend, 10⟩
  else
    ⟨"b1", ESRI_LandCover_legend, 10⟩

/-- One row of the statistics table (`app.py` 1134-1139): class label,
color, `round(area_ha, 2)`, and raw pixel count. -/
structure LCRow where
  cls : String
  color : String
  area_ha : Rat
  pixels : Rat

/-- The row-building loop (`app.py` 1130-1139): for each histogram entry
whose class code is a key of the legend, append a row with
`area_ha = count * scale² / 10000` (rounded to 2 decimals for the
table); codes absent from the legend are silently dropped. -/
def lcStatRows (legend : List (String × LegendEntry)) (scale : Rat)
    (counts : List (String × Rat)) : List LCRow :=
  counts.filterMap (fun p =>
    (lookupStr legend p.1).map (fun e =>
      ⟨e.label, e.color, pyRound (p.2 * (scale * scale) / 10000) 2, p.2⟩))

/-- Line `total_area = df["Area (ha)"].sum()` (`app.py` 1143). -/
def lcTotalArea (rows : List LCRow) : Rat :=
  (rows.map (fun r => r.area_ha)).sum

/-- Line `df["Percentage"] = round(df["Area (ha)"] / total_area * 100, 1)`
(`app.py` 1144; the subsequent sort only reorders rows). -/
def lcPercentages (rows : List LCRow) : List Rat :=
  rows.map (fun r => pyRound (r.area_ha / lcTotalArea rows * 100) 1)

/-! Structural shape of a `PyVal`, used to state that the axis
normalizer preserves nesting depth and element counts. -/

/-- The shape of a value: scalars/None are atoms, containers keep their
element structure (dicts keep their keys). -/
inductive PyShape where
  | atom : PyShape
  | node : List PyShape → PyShape
  | obj : List (String × PyShape) → PyShape

mutual

def shapeOf : PyVal → PyShape
  | .list xs => .node (shapeList xs)
  | .dict kvs => .obj (shapeDict kvs)
  | _ => .atom

def shapeList : List PyVal → List PyShape
  | [] => []
  | x :: xs => shapeOf x :: shapeList xs

def shapeDict : List (String × PyVal) → List (String × PyShape)
  | [] => []
  | (k, v) :: kvs => (k, shapeOf v) :: shapeDict kvs

end

/-! Unfolding lemmas for the mutual well-founded definitions. -/

theorem swap_num (r : Rat) : swap_xy_in_coords (.num r) = some (.num r) := by
  simp [swap_xy_in_coords]

theorem swap_str (s : String) (v : Option Rat) :
    swap_xy_in_coords (.str s v) = some (.str s v) := by
  simp [swap_xy_in_coords]

theorem swap_null : swap_xy_in_coords .null = some .null := by
  simp [swap_xy_in_coords]

theorem swap_dict_eq (kvs : List (String × PyVal)) :
    swap_xy_in_coords (.dict kvs) = (swapDict kvs).map .dict := by
  simp [swap_xy_in_coords]

theorem swap_list_not_leaf (xs : List PyVal) (h : leafCandidate xs = false) :
    swap_xy_in_coords (.list xs) = (swapList xs).map .list := by
  rw [swap_xy_in_coords.eq_def]
  simp [h]

theorem swap_list_leaf_noswap (xs : List PyVal) (h1 : leafCandidate xs = true)
    (h2 : looks_like_latlon (.list xs) = false) :
    swap_xy_in_coords (.list xs) = (coerceList xs).map .list := by
  rw [swap_xy_in_coords.eq_def]
  simp [h1, h2]

theorem swap_list_leaf_swap (x y : PyVal) (rest : List PyVal)
    (h1 : leafCandidate (x :: y :: rest) = true)
    (h2 : looks_like_latlon (.list (x :: y :: rest)) = true) :
    swap_xy_in_coords (.list (x :: y :: rest)) =
      match pyFloat x, pyFloat y, restFloats rest with
      | some a, some b, some fr => some (.list (.num b :: .num a :: fr.map .num))
      | _, _, _ => none := by
  rw [swap_xy_in_coords]
  simp [h1, h2]

theorem swapList_nil : swapList [] = some [] := by simp [swapList]

theorem swapList_cons (x : PyVal) (xs : List PyVal) :
    swapList (x :: xs) =
      match swap_xy_in_coords x, swapList xs with
      | some y, some ys => some (y :: ys)
      | _, _ => none := by
  rw [swapList]

theorem swapDict_nil : swapDict [] = some [] := by simp [swapDict]

theorem swapDict_cons (k : String) (v : PyVal) (kvs : List (String × PyVal)) :
    swapDict ((k, v) :: kvs) =
      match (if k = "type" then some v else swap_xy_in_coords v), swapDict kvs with
      | some w, some ws => some ((k, w) :: ws)
      | _, _ => none := by
  rw [swapDict]

/-- The heuristic on a ≥2-element list, characterized by the float
coercions of its first two elements. -/
theorem looks_like_latlon_cons (x y : PyVal) (rest : List PyVal) :
    looks_like_latlon (.list (x :: y :: rest)) = true ↔
      ∃ a b, pyFloat x = some a ∧ pyFloat y = some b ∧
        LAT_MIN ≤ a ∧ a ≤ LAT_MAX ∧ LON_MIN ≤ b ∧ b ≤ LON_MAX := by
  cases hx : pyFloat x <;> cases hy : pyFloat y <;>
    simp [looks_like_latlon, hx, hy, and_assoc]

/-- C1.  `looks_like_latlon(pair)` is true exactly when the input is a
list/tuple with at least two elements, both of whose first two elements
coerce to numbers, the first in `[-11.5, 6.5]` and the second in
`[94.0, 141.5]`; every other input — non-list, fewer than two elements,
non-coercible first two — yields `false`.  The function is total (the
`try/except` in the source catches every coercion error), which is this
model's rendering of "never raises". -/
theorem looks_like_latlon_correct (p : PyVal) :
    looks_like_latlon p = true ↔
      ∃ x y rest a b, p = .list (x :: y :: rest) ∧
        pyFloat x = some a ∧ pyFloat y = some b ∧
        -23/2 ≤ a ∧ a ≤ 13/2 ∧ 94 ≤ b ∧ b ≤ 283/2 := by
  cases p with
  | list xs =>
    match xs with
    | [] => simp [looks_like_latlon]
    | [x] => simp [looks_like_latlon]
    | x :: y :: rest =>
      rw [looks_like_latlon_cons]
      constructor
      · rintro ⟨a, b, h⟩
        exact ⟨x, y, rest, a, b, rfl, h.1, h.2.1, h.2.2.1, h.2.2.2.1,
          h.2.2.2.2.1, h.2.2.2.2.2⟩
      · rintro ⟨x', y', rest', a, b, heq, h⟩
        cases heq
        exact ⟨a, b, h⟩
  | num r => simp [looks_like_latlon]
  | str s v => simp [looks_like_latlon]
  | null => simp [looks_like_latlon]
  | dict kvs => simp [looks_like_latlon]

theorem looks_num_pair (a b : Rat) (rest : List PyVal) :
    looks_like_latlon (.list (.num a :: .num b :: rest)) =
      (decide (LAT_MIN ≤ a) && decide (a ≤ LAT_MAX) &&
       decide (LON_MIN ≤ b) && decide (b ≤ LON_MAX)) := by
  simp [looks_like_latlon, pyFloat]

theorem looks_true_of (a b : Rat) (rest : List PyVal) (h1 : LAT_MIN ≤ a)
    (h2 : a ≤ LAT_MAX) (h3 : LON_MIN ≤ b) (h4 : b ≤ LON_MAX) :
    looks_like_latlon (.list (.num a :: .num b :: rest)) = true := by
  rw [looks_num_pair]
  simp [h1, h2, h3, h4]

theorem looks_false_of_lat_high (a b : Rat) (rest : List PyVal)
    (h : ¬ a ≤ LAT_MAX) :
    looks_like_latlon (.list (.num a :: .num b :: rest)) = false := by
  rw [looks_num_pair]
  simp [h]

theorem restFloats_map_num (rs : List Rat) :
    restFloats (rs.map .num) = some rs := by
  induction rs with
  | nil => simp [restFloats]
  | cons r rs ih => rw [List.map_cons, restFloats, ih]; simp [pyFloat]

theorem coerceList_map_num (rs : List Rat) :
    coerceList (rs.map .num) = some (rs.map .num) := by
  induction rs with
  | nil => simp [coerceList]
  | cons r rs ih => rw [List.map_cons, coerceList, ih]; simp [coerceStr]

theorem leafCandidate_num_cons (a b : Rat) (rest : List PyVal) :
    leafCandidate (.num a :: .num b :: rest) = true := by
  simp [leafCandidate, isScalar]

/-- Action of the normalizer on a purely numeric leaf: swap exactly when
the heuristic fires. -/
theorem swap_num_pair (a b : Rat) (rest : List Rat) :
    swap_xy_in_coords (.list (.num a :: .num b :: rest.map .num)) =
      if looks_like_latlon (.list (.num a :: .num b :: rest.map .num)) then
        some (.list (.num b :: .num a :: rest.map .num))
      else some (.list (.num a :: .num b :: rest.map .num)) := by
  cases h : looks_like_latlon (.list (.num a :: .num b :: rest.map .num)) with
  | true =>
    rw [swap_list_leaf_swap _ _ _ (leafCandidate_num_cons a b _) h]
    simp [pyFloat, restFloats_map_num]
  | false =>
    rw [swap_list_leaf_noswap _ (leafCandidate_num_cons a b _) h]
    have hc := coerceList_map_num (a :: b :: rest)
    simp only [List.map_cons] at hc
    simp [hc]

/-- C2.  On a numeric-leaf pair `[a, b, ...rest]` the normalizer swaps
the first two elements exactly when `looks_like_latlon` fires and
otherwise returns the node in unchanged order; a numeric-looking string
in the tail is coerced to its number; and concretely `[-6.2, 106.8]`
becomes `[106.8, -6.2]` while `[106.8, -6.2]` is returned unchanged. -/
theorem swap_xy_numeric_leaf (a b : Rat) (rest : List Rat) (s : String) (v : Rat) :
    (looks_like_latlon (.list (.num a :: .num b :: rest.map .num)) = true →
      swap_xy_in_coords (.list (.num a :: .num b :: rest.map .num)) =
        some (.list (.num b :: .num a :: rest.map .num))) ∧
    (looks_like_latlon (.list (.num a :: .num b :: rest.map .num)) = false →
      swap_xy_in_coords (.list (.num a :: .num b :: rest.map .num)) =
        some (.list (.num a :: .num b :: rest.map .num))) ∧
    (looks_like_latlon (.list [.num a, .num b, .str s (some v)]) = false →
      swap_xy_in_coords (.list [.num a, .num b, .str s (some v)]) =
        some (.list [.num a, .num b, .num v])) ∧
    swap_xy_in_coords (.list [.num (-31/5), .num (534/5)]) =
      some (.list [.num (534/5), .num (-31/5)]) ∧
    swap_xy_in_coords (.list [.num (534/5), .num (-31/5)]) =
      some (.list [.num (534/5), .num (-31/5)]) := by
  refine ⟨fun h => ?_, fun h => ?_, fun h => ?_, ?_, ?_⟩
  · rw [swap_num_pair, h]; simp
  · rw [swap_num_pair, h]; simp
  · rw [swap_list_leaf_noswap _ (leafCandidate_num_cons a b _) h]
    simp [coerceList, coerceStr]
  · have h := swap_num_pair (-31/5) (534/5) []
    rw [if_pos (looks_true_of _ _ _ (by norm_num [LAT_MIN]) (by norm_num [LAT_MAX])
      (by norm_num [LON_MIN]) (by norm_num [LON_MAX]))] at h
    simpa using h
  · have hf := looks_false_of_lat_high (534/5) (-31/5) (List.map PyVal.num [])
      (by norm_num [LAT_MAX])
    have h := swap_num_pair (534/5) (-31/5) []
    rw [hf] at h
    simpa using h

/-- Witness for C2: the Jakarta pair with an extra z component is
swapped; an already-(lon, lat) pair with a z component is unchanged; a
numeric-looking string z is coerced. -/
theorem swap_xy_numeric_leaf_witness :
    swap_xy_in_coords (.list [.num (-31/5), .num (534/5), .num 12]) =
      some (.list [.num (534/5), .num (-31/5), .num 12]) ∧
    swap_xy_in_coords (.list [.num (534/5), .num (-31/5), .num 12]) =
      some (.list [.num (534/5), .num (-31/5), .num 12]) ∧
    swap_xy_in_coords (.list [.num (534/5), .num (-31/5), .str "7" (some 7)]) =
      some (.list [.num (534/5), .num (-31/5), .num 7]) := by
  refine ⟨?_, ?_, ?_⟩
  · exact (swap_xy_numeric_leaf (-31/5) (534/5) [12] "7" 7).1
      (looks_true_of _ _ _ (by norm_num [LAT_MIN]) (by norm_num [LAT_MAX])
        (by norm_num [LON_MIN]) (by norm_num [LON_MAX]))
  · exact (swap_xy_numeric_leaf (534/5) (-31/5) [12] "7" 7).2.1
      (looks_false_of_lat_high _ _ _ (by norm_num [LAT_MAX]))
  · exact (swap_xy_numeric_leaf (534/5) (-31/5) [] "7" 7).2.2.1
      (looks_false_of_lat_high _ _ _ (by norm_num [LAT_MAX]))

/-- Strong induction over `PyVal` with access to list/dict elements. -/
theorem PyVal.strongInduction {P : PyVal → Prop} (hnum : ∀ r, P (.num r))
    (hstr : ∀ s v, P (.str s v)) (hnull : P .null)
    (hlist : ∀ xs, (∀ x ∈ xs, P x) → P (.list xs))
    (hdict : ∀ kvs, (∀ p ∈ kvs, P p.2) → P (.dict kvs)) : ∀ v, P v := by
  have key : ∀ n (v : PyVal), sizeOf v ≤ n → P v := by
    intro n
    induction n with
    | zero =>
      intro v hv
      exfalso
      cases v <;> simp at hv
    | succ n ih =>
      intro v hv
      cases v with
      | num r => exact hnum r
      | str s o => exact hstr s o
      | null => exact hnull
      | list xs =>
        refine hlist xs (fun x hx => ih x ?_)
        have h1 := List.sizeOf_lt_of_mem hx
        simp at hv
        omega
      | dict kvs =>
        refine hdict kvs (fun p hp => ih p.2 ?_)
        have h1 := List.sizeOf_lt_of_mem hp
        have h2 : sizeOf p.2 < sizeOf p := by
          obtain ⟨k, v2⟩ := p
          simp only [Prod.mk.sizeOf_spec]
          omega
        simp at hv
        omega
  exact fun v => key (sizeOf v) v le_rfl

theorem shapeList_nil : shapeList [] = [] := by simp [shapeList]

theorem shapeList_cons (x : PyVal) (xs : List PyVal) :
    shapeList (x :: xs) = shapeOf x :: shapeList xs := by
  rw [shapeList]

theorem shapeDict_nil : shapeDict [] = [] := by simp [shapeDict]

theorem shapeDict_cons (k : String) (v : PyVal) (kvs : List (String × PyVal)) :
    shapeDict ((k, v) :: kvs) = (k, shapeOf v) :: shapeDict kvs := by
  rw [shapeDict]

theorem shapeOf_list (xs : List PyVal) : shapeOf (.list xs) = .node (shapeList xs) := by
  rw [shapeOf]

theorem shapeOf_dict (kvs : List (String × PyVal)) :
    shapeOf (.dict kvs) = .obj (shapeDict kvs) := by
  rw [shapeOf]

theorem shapeOf_scalar (x : PyVal) (h : isScalar x = true) : shapeOf x = .atom := by
  cases x <;> simp [isScalar] at h <;> simp [shapeOf]

theorem shapeOf_of_pyFloat (x : PyVal) (a : Rat) (h : pyFloat x = some a) :
    shapeOf x = .atom := by
  cases x <;> simp [pyFloat] at h <;> simp [shapeOf]

theorem restFloats_shape (rest : List PyVal) (fr : List Rat)
    (h : restFloats rest = some fr) :
    shapeList (fr.map .num) = shapeList rest := by
  induction rest generalizing fr with
  | nil =>
    rw [restFloats] at h
    cases h
    simp
  | cons x xs ih =>
    rw [restFloats] at h
    cases hx : pyFloat x with
    | none => rw [hx] at h; simp at h
    | some a =>
      rw [hx] at h
      cases hxs : restFloats xs with
      | none => rw [hxs] at h; simp at h
      | some fr' =>
        rw [hxs] at h
        simp at h
        subst h
        rw [List.map_cons, shapeList_cons, shapeList_cons, ih fr' hxs,
          shapeOf_of_pyFloat x a hx]
        simp [shapeOf]

theorem coerceStr_shape (x y : PyVal) (h : coerceStr x = some y) :
    shapeOf y = shapeOf x := by
  cases x with
  | str s v =>
    cases v with
    | none => simp [coerceStr] at h
    | some r => simp [coerceStr] at h; subst h; simp [shapeOf]
  | num r => simp [coerceStr] at h; subst h; rfl
  | null => simp [coerceStr] at h; subst h; rfl
  | list xs => simp [coerceStr] at h; subst h; rfl
  | dict kvs => simp [coerceStr] at h; subst h; rfl

theorem coerceList_shape (xs ys : List PyVal) (h : coerceList xs = some ys) :
    shapeList ys = shapeList xs := by
  induction xs generalizing ys with
  | nil => rw [coerceList] at h; cases h; rfl
  | cons x xs ih =>
    rw [coerceList] at h
    cases hx : coerceStr x with
    | none => rw [hx] at h; simp at h
    | some y =>
      rw [hx] at h
      cases hxs : coerceList xs with
      | none => rw [hxs] at h; simp at h
      | some ys' =>
        rw [hxs] at h
        simp at h
        subst h
        rw [shapeList_cons, shapeList_cons, ih ys' hxs, coerceStr_shape x y hx]

theorem swapList_shape (xs : List PyVal) : ∀ ys : List PyVal,
    (∀ x ∈ xs, ∀ out, swap_xy_in_coords x = some out → shapeOf out = shapeOf x) →
    swapList xs = some ys → shapeList ys = shapeList xs := by
  induction xs with
  | nil =>
    intro ys _ h
    rw [swapList] at h
    cases h
    rfl
  | cons x xs ih =>
    intro ys IH h
    rw [swapList_cons] at h
    cases hx : swap_xy_in_coords x with
    | none => rw [hx] at h; simp at h
    | some y =>
      rw [hx] at h
      cases hxs : swapList xs with
      | none => rw [hxs] at h; simp at h
      | some ys' =>
        rw [hxs] at h
        simp at h
        subst h
        rw [shapeList_cons, shapeList_cons,
          ih ys' (fun x hx => IH x (List.mem_cons_of_mem _ hx)) hxs,
          IH x (List.mem_cons_self x xs) y hx]

theorem swapDict_shape (kvs : List (String × PyVal)) :
    ∀ ws : List (String × PyVal),
    (∀ p ∈ kvs, ∀ out, swap_xy_in_coords p.2 = some out → shapeOf out = shapeOf p.2) →
    swapDict kvs = some ws → shapeDict ws = shapeDict kvs := by
  induction kvs with
  | nil =>
    intro ws _ h
    rw [swapDict] at h
    cases h
    rfl
  | cons p kvs ih =>
    intro ws IH h
    obtain ⟨k, v⟩ := p
    rw [swapDict_cons] at h
    cases hv : (if k = "type" then some v else swap_xy_in_coords v) with
    | none => rw [hv] at h; simp at h
    | some w =>
      rw [hv] at h
      cases hkvs : swapDict kvs with
      | none => rw [hkvs] at h; simp at h
      | some ws' =>
        rw [hkvs] at h
        simp at h
        subst h
        rw [shapeDict_cons, shapeDict_cons,
          ih ws' (fun q hq => IH q (List.mem_cons_of_mem _ hq)) hkvs]
        by_cases hk : k = "type"
        · rw [if_pos hk] at hv
          cases hv
          rfl
        · rw [if_neg hk] at hv
          rw [IH (k, v) (List.mem_cons_self _ _) w hv]

/-- Core shape preservation: a successful normalization has exactly the
shape of its input. -/
theorem swap_shape_core :
    ∀ v, ∀ out, swap_xy_in_coords v = some out → shapeOf out = shapeOf v := by
  refine PyVal.strongInduction ?_ ?_ ?_ ?_ ?_
  · intro r out h
    rw [swap_num] at h
    cases h
    rfl
  · intro s v out h
    rw [swap_str] at h
    cases h
    rfl
  · intro out h
    rw [swap_null] at h
    cases h.symm
    rfl
  · intro xs IH out h
    cases hlc : leafCandidate xs with
    | false =>
      rw [swap_list_not_leaf xs hlc] at h
      cases hsl : swapList xs with
      | none => rw [hsl] at h; simp at h
      | some ys =>
        rw [hsl] at h
        simp at h
        subst h
        rw [shapeOf_list, shapeOf_list, swapList_shape xs ys IH hsl]
    | true =>
      cases hlk : looks_like_latlon (.list xs) with
      | false =>
        rw [swap_list_leaf_noswap xs hlc hlk] at h
        cases hcl : coerceList xs with
        | none => rw [hcl] at h; simp at h
        | some ys =>
          rw [hcl] at h
          simp at h
          subst h
          rw [shapeOf_list, shapeOf_list, coerceList_shape xs ys hcl]
      | true =>
        cases xs with
        | nil => simp [leafCandidate] at hlc
        | cons x xs' =>
        cases xs' with
        | nil => simp [leafCandidate] at hlc
        | cons y rest =>
          rw [swap_list_leaf_swap x y rest hlc hlk] at h
          cases hx : pyFloat x with
          | none => rw [hx] at h; simp at h
          | some a =>
            cases hy : pyFloat y with
            | none => rw [hx, hy] at h; simp at h
            | some b =>
              cases hr : restFloats rest with
              | none => rw [hx, hy, hr] at h; simp at h
              | some fr =>
                rw [hx, hy, hr] at h
                simp at h
                subst h
                rw [shapeOf_list, shapeOf_list, shapeList_cons, shapeList_cons,
                  shapeList_cons, shapeList_cons, restFloats_shape rest fr hr,
                  shapeOf_of_pyFloat x a hx, shapeOf_of_pyFloat y b hy]
                simp [shapeOf]
  · intro kvs IH out h
    rw [swap_dict_eq] at h
    cases hsd : swapDict kvs with
    | none => rw [hsd] at h; simp at h
    | some ws =>
      rw [hsd] at h
      simp at h
      subst h
      rw [shapeOf_dict, shapeOf_dict, swapDict_shape kvs ws IH hsd]

theorem swapDict_forall2 (kvs : List (String × PyVal)) :
    ∀ ws, swapDict kvs = some ws →
    List.Forall₂ (fun p q => q.1 = p.1 ∧
      (if p.1 = "type" then q.2 = p.2 else swap_xy_in_coords p.2 = some q.2))
      kvs ws := by
  induction kvs with
  | nil =>
    intro ws h
    rw [swapDict] at h
    cases h
    exact List.Forall₂.nil
  | cons p kvs ih =>
    intro ws h
    obtain ⟨k, v⟩ := p
    rw [swapDict_cons] at h
    cases hv : (if k = "type" then some v else swap_xy_in_coords v) with
    | none => rw [hv] at h; simp at h
    | some w =>
      rw [hv] at h
      cases hkvs : swapDict kvs with
      | none => rw [hkvs] at h; simp at h
      | some ws' =>
        rw [hkvs] at h
        simp at h
        subst h
        refine List.Forall₂.cons ⟨rfl, ?_⟩ (ih ws' hkvs)
        by_cases hk : k = "type"
        · rw [if_pos hk] at hv
          rw [if_pos hk]
          cases hv
          rfl
        · rw [if_neg hk] at hv
          rw [if_neg hk]
          exact hv

/-- C3.  A successful normalization preserves the structural shape of
its input exactly (same nesting depth and element counts, dict keys in
place); on a numeric leaf pair only the order of the first two
components can change, and only when the heuristic fires; and in a dict
every key's value is normalized except a `"type"` key, whose value
passes through verbatim. -/
theorem swap_xy_preserves_structure :
    (∀ v out, swap_xy_in_coords v = some out → shapeOf out = shapeOf v) ∧
    (∀ (a b : Rat) (rest : List Rat),
      swap_xy_in_coords (.list (.num a :: .num b :: rest.map .num)) =
        if looks_like_latlon (.list (.num a :: .num b :: rest.map .num)) then
          some (.list (.num b :: .num a :: rest.map .num))
        else some (.list (.num a :: .num b :: rest.map .num))) ∧
    (∀ kvs ws, swap_xy_in_coords (.dict kvs) = some (.dict ws) →
      List.Forall₂ (fun p q => q.1 = p.1 ∧
        (if p.1 = "type" then q.2 = p.2 else swap_xy_in_coords p.2 = some q.2))
        kvs ws) := by
  refine ⟨swap_shape_core, swap_num_pair, ?_⟩
  intro kvs ws h
  rw [swap_dict_eq] at h
  cases hsd : swapDict kvs with
  | none => rw [hsd] at h; simp at h
  | some ws' =>
    rw [hsd] at h
    simp at h
    subst h
    exact swapDict_forall2 _ _ hsd

/-- Witness for C3 at a two-point ring (one point swapped, one not) and
at a geometry dict with a verbatim `"type"` key. -/
theorem swap_xy_preserves_structure_witness :
    shapeOf (.list [.list [.num 107, .num (-6)], .list [.num 107, .num (-6)]]) =
      shapeOf (.list [.list [.num (-6), .num 107], .list [.num 107, .num (-6)]]) ∧
    List.Forall₂ (fun p q => q.1 = p.1 ∧
      (if p.1 = "type" then q.2 = p.2 else swap_xy_in_coords p.2 = some q.2))
      [("type", .str "Polygon" none), ("coordinates", .list [.num (-6), .num 107])]
      [("type", .str "Polygon" none), ("coordinates", .list [.num 107, .num (-6)])] := by
  have hp : swap_xy_in_coords (.list [.num (-6), .num 107]) =
      some (.list [.num 107, .num (-6)]) := by
    norm_num [swap_xy_in_coords, coerceList, coerceStr, restFloats,
      leafCandidate, isScalar, looks_num_pair, pyFloat,
      LAT_MIN, LAT_MAX, LON_MIN, LON_MAX]
  have hq : swap_xy_in_coords (.list [.num 107, .num (-6)]) =
      some (.list [.num 107, .num (-6)]) := by
    norm_num [swap_xy_in_coords, coerceList, coerceStr, restFloats,
      leafCandidate, isScalar, looks_num_pair, pyFloat,
      LAT_MIN, LAT_MAX, LON_MIN, LON_MAX]
  have h1 : swap_xy_in_coords
      (.list [.list [.num (-6), .num 107], .list [.num 107, .num (-6)]]) =
      some (.list [.list [.num 107, .num (-6)], .list [.num 107, .num (-6)]]) := by
    rw [swap_list_not_leaf _ (by rfl), swapList_cons, hp]
    rw [swapList_cons, hq, swapList_nil]
    rfl
  have h2 : swap_xy_in_coords (.dict [("type", .str "Polygon" none),
      ("coordinates", .list [.num (-6), .num 107])]) =
      some (.dict [("type", .str "Polygon" none),
        ("coordinates", .list [.num 107, .num (-6)])]) := by
    rw [swap_dict_eq, swapDict_cons, swapDict_cons, swapDict_nil]
    simp [hp]
  exact ⟨swap_xy_preserves_structure.1 _ _ h1,
    swap_xy_preserves_structure.2.2 _ _ h2⟩

theorem coerceStr_pyFloat (x y : PyVal) (h : coerceStr x = some y) :
    pyFloat y = pyFloat x := by
  cases x with
  | str s v =>
    cases v with
    | none => simp [coerceStr] at h
    | some r => simp [coerceStr] at h; subst h; rfl
  | num r => simp [coerceStr] at h; subst h; rfl
  | null => simp [coerceStr] at h; subst h; rfl
  | list xs => simp [coerceStr] at h; subst h; rfl
  | dict kvs => simp [coerceStr] at h; subst h; rfl

theorem coerceStr_isScalar (x y : PyVal) (h : coerceStr x = some y) :
    isScalar y = isScalar x := by
  cases x with
  | str s v =>
    cases v with
    | none => simp [coerceStr] at h
    | some r => simp [coerceStr] at h; subst h; rfl
  | num r => simp [coerceStr] at h; subst h; rfl
  | null => simp [coerceStr] at h; subst h; rfl
  | list xs => simp [coerceStr] at h; subst h; rfl
  | dict kvs => simp [coerceStr] at h; subst h; rfl

theorem coerceStr_idem (x y : PyVal) (h : coerceStr x = some y) :
    coerceStr y = some y := by
  cases x with
  | str s v =>
    cases v with
    | none => simp [coerceStr] at h
    | some r => simp [coerceStr] at h; subst h; rfl
  | num r => simp [coerceStr] at h; subst h; rfl
  | null => simp [coerceStr] at h; subst h; rfl
  | list xs => simp [coerceStr] at h; subst h; rfl
  | dict kvs => simp [coerceStr] at h; subst h; rfl

theorem coerceList_forall2 (xs : List PyVal) : ∀ ys,
    coerceList xs = some ys →
    List.Forall₂ (fun x y => coerceStr x = some y) xs ys := by
  induction xs with
  | nil =>
    intro ys h
    rw [coerceList] at h
    cases h
    exact List.Forall₂.nil
  | cons x xs ih =>
    intro ys h
    rw [coerceList] at h
    cases hx : coerceStr x with
    | none => rw [hx] at h; simp at h
    | some y =>
      rw [hx] at h
      cases hxs : coerceList xs with
      | none => rw [hxs] at h; simp at h
      | some ys' =>
        rw [hxs] at h
        simp at h
        subst h
        exact List.Forall₂.cons hx (ih ys' hxs)

theorem coerceList_idem (xs : List PyVal) : ∀ ys,
    coerceList xs = some ys → coerceList ys = some ys := by
  induction xs with
  | nil =>
    intro ys h
    rw [coerceList] at h
    cases h
    rfl
  | cons x xs ih =>
    intro ys h
    rw [coerceList] at h
    cases hx : coerceStr x with
    | none => rw [hx] at h; simp at h
    | some y =>
      rw [hx] at h
      cases hxs : coerceList xs with
      | none => rw [hxs] at h; simp at h
      | some ys' =>
        rw [hxs] at h
        simp at h
        subst h
        rw [coerceList, coerceStr_idem x y hx, ih ys' hxs]

theorem swapList_forall2 (xs : List PyVal) : ∀ ys,
    swapList xs = some ys →
    List.Forall₂ (fun x y => swap_xy_in_coords x = some y) xs ys := by
  induction xs with
  | nil =>
    intro ys h
    rw [swapList] at h
    cases h
    exact List.Forall₂.nil
  | cons x xs ih =>
    intro ys h
    rw [swapList_cons] at h
    cases hx : swap_xy_in_coords x with
    | none => rw [hx] at h; simp at h
    | some y =>
      rw [hx] at h
      cases hxs : swapList xs with
      | none => rw [hxs] at h; simp at h
      | some ys' =>
        rw [hxs] at h
        simp at h
        subst h
        exact List.Forall₂.cons hx (ih ys' hxs)

theorem swap_isScalar (x y : PyVal) (h : swap_xy_in_coords x = some y) :
    isScalar y = isScalar x := by
  have hsh := swap_shape_core x y h
  cases x with
  | num r => rw [swap_num] at h; cases h; rfl
  | str s v => rw [swap_str] at h; cases h; rfl
  | null => rw [swap_null] at h; cases h; rfl
  | list xs =>
    rw [shapeOf_list] at hsh
    cases y <;> simp [shapeOf] at hsh <;> rfl
  | dict kvs =>
    rw [shapeOf_dict] at hsh
    cases y <;> simp [shapeOf] at hsh <;> rfl

theorem looks_eq_of_first2 (x y x' y' : PyVal) (rest rest' : List PyVal)
    (hx : pyFloat x' = pyFloat x) (hy : pyFloat y' = pyFloat y) :
    looks_like_latlon (.list (x' :: y' :: rest')) =
      looks_like_latlon (.list (x :: y :: rest)) := by
  simp only [looks_like_latlon, hx, hy]

theorem swapList_idem (xs : List PyVal) : ∀ ys,
    (∀ x ∈ xs, ∀ out, swap_xy_in_coords x = some out →
      swap_xy_in_coords out = some out) →
    swapList xs = some ys → swapList ys = some ys := by
  induction xs with
  | nil =>
    intro ys _ h
    rw [swapList] at h
    cases h
    rfl
  | cons x xs ih =>
    intro ys IH h
    rw [swapList_cons] at h
    cases hx : swap_xy_in_coords x with
    | none => rw [hx] at h; simp at h
    | some y =>
      rw [hx] at h
      cases hxs : swapList xs with
      | none => rw [hxs] at h; simp at h
      | some ys' =>
        rw [hxs] at h
        simp at h
        subst h
        rw [swapList_cons, IH x (List.mem_cons_self x xs) y hx,
          ih ys' (fun q hq => IH q (List.mem_cons_of_mem _ hq)) hxs]

theorem swapDict_idem (kvs : List (String × PyVal)) : ∀ ws,
    (∀ p ∈ kvs, ∀ out, swap_xy_in_coords p.2 = some out →
      swap_xy_in_coords out = some out) →
    swapDict kvs = some ws → swapDict ws = some ws := by
  induction kvs with
  | nil =>
    intro ws _ h
    rw [swapDict] at h
    cases h
    rfl
  | cons p kvs ih =>
    intro ws IH h
    obtain ⟨k, v⟩ := p
    rw [swapDict_cons] at h
    cases hv : (if k = "type" then some v else swap_xy_in_coords v) with
    | none => rw [hv] at h; simp at h
    | some w =>
      rw [hv] at h
      cases hkvs : swapDict kvs with
      | none => rw [hkvs] at h; simp at h
      | some ws' =>
        rw [hkvs] at h
        simp at h
        subst h
        rw [swapDict_cons, ih ws' (fun q hq => IH q (List.mem_cons_of_mem _ hq)) hkvs]
        by_cases hk : k = "type"
        · rw [if_pos hk]
        · rw [if_neg hk] at hv
          rw [if_neg hk, IH (k, v) (List.mem_cons_self _ _) w hv]

theorem leafCandidate_eq_of_forall2 (f : PyVal → PyVal → Prop)
    (hsc : ∀ x y, f x y → isScalar y = isScalar x) :
    ∀ xs ys, List.Forall₂ f xs ys → leafCandidate ys = leafCandidate xs := by
  intro xs ys hf
  cases hf with
  | nil => rfl
  | cons h1 hf' =>
    cases hf' with
    | nil => rfl
    | cons h2 hf'' =>
      simp only [leafCandidate]
      rw [hsc _ _ h1, hsc _ _ h2]

/-- C4.  Normalization is idempotent wherever it succeeds: a second
application returns the first application's output unchanged.  The
lat/lon-ambiguous overlap `[LAT_MIN, LAT_MAX] ∩ [LON_MIN, LON_MAX]` is
empty (6.5 < 94), so a swapped pair can never satisfy the heuristic
again and no restriction on the input region is needed: the claim's
hypothesis holds vacuously and the unrestricted statement is proved. -/
theorem swap_xy_idempotent :
    ∀ v out, swap_xy_in_coords v = some out →
      swap_xy_in_coords out = some out := by
  refine PyVal.strongInduction ?_ ?_ ?_ ?_ ?_
  · intro r out h
    rw [swap_num] at h
    cases h
    exact swap_num r
  · intro s v out h
    rw [swap_str] at h
    cases h
    exact swap_str s v
  · intro out h
    rw [swap_null] at h
    cases h
    exact swap_null
  · intro xs IH out h
    cases hlc : leafCandidate xs with
    | false =>
      rw [swap_list_not_leaf xs hlc] at h
      cases hsl : swapList xs with
      | none => rw [hsl] at h; simp at h
      | some ys =>
        rw [hsl] at h
        simp at h
        subst h
        have hf2 := swapList_forall2 xs ys hsl
        have hlcy : leafCandidate ys = false := by
          rw [leafCandidate_eq_of_forall2 _ swap_isScalar xs ys hf2, hlc]
        rw [swap_list_not_leaf ys hlcy, swapList_idem xs ys IH hsl]
        rfl
    | true =>
      cases hlk : looks_like_latlon (.list xs) with
      | false =>
        rw [swap_list_leaf_noswap xs hlc hlk] at h
        cases hcl : coerceList xs with
        | none => rw [hcl] at h; simp at h
        | some ys =>
          rw [hcl] at h
          simp at h
          subst h
          have hf2 := coerceList_forall2 xs ys hcl
          have hlcy : leafCandidate ys = true := by
            rw [leafCandidate_eq_of_forall2 _ coerceStr_isScalar xs ys hf2, hlc]
          have hlky : looks_like_latlon (.list ys) = false := by
            cases hf2 with
            | nil => simp [leafCandidate] at hlcy
            | cons h1 hf' =>
              cases hf' with
              | nil => simp [leafCandidate] at hlcy
              | cons h2 hf'' =>
                rw [looks_eq_of_first2 _ _ _ _ _ _ (coerceStr_pyFloat _ _ h1)
                  (coerceStr_pyFloat _ _ h2)]
                exact hlk
          rw [swap_list_leaf_noswap ys hlcy hlky, coerceList_idem xs ys hcl]
          rfl
      | true =>
        cases xs with
        | nil => simp [leafCandidate] at hlc
        | cons x xs' =>
        cases xs' with
        | nil => simp [leafCandidate] at hlc
        | cons y rest =>
          rw [swap_list_leaf_swap x y rest hlc hlk] at h
          cases hx : pyFloat x with
          | none => rw [hx] at h; simp at h
          | some a =>
            cases hy : pyFloat y with
            | none => rw [hx, hy] at h; simp at h
            | some b =>
              cases hr : restFloats rest with
              | none => rw [hx, hy, hr] at h; simp at h
              | some fr =>
                rw [hx, hy, hr] at h
                simp at h
                subst h
                obtain ⟨a', b', hx', hy', hbnd⟩ :=
                  (looks_like_latlon_cons x y rest).mp hlk
                rw [hx] at hx'
                rw [hy] at hy'
                cases hx'
                cases hy'
                have hnb : ¬ (b ≤ LAT_MAX) := by
                  have hb := hbnd.2.2.1
                  rw [LON_MIN] at hb
                  rw [LAT_MAX]
                  intro hcon
                  linarith
                rw [swap_list_leaf_noswap _ (leafCandidate_num_cons b a _)
                  (looks_false_of_lat_high b a _ hnb)]
                have hcl := coerceList_map_num (b :: a :: fr)
                simp only [List.map_cons] at hcl
                rw [hcl]
                rfl
  · intro kvs IH out h
    rw [swap_dict_eq] at h
    cases hsd : swapDict kvs with
    | none => rw [hsd] at h; simp at h
    | some ws =>
      rw [hsd] at h
      simp at h
      subst h
      rw [swap_dict_eq, swapDict_idem kvs ws IH hsd]
      rfl

/-- Witness for C4: the normalized Jakarta-like point is a fixed point
of the normalizer. -/
theorem swap_xy_idempotent_witness :
    swap_xy_in_coords (.list [.num 107, .num (-6)]) =
      some (.list [.num 107, .num (-6)]) := by
  have h1 : swap_xy_in_coords (.list [.num (-6), .num 107]) =
      some (.list [.num 107, .num (-6)]) := by
    norm_num [swap_xy_in_coords, coerceList, coerceStr, restFloats,
      leafCandidate, isScalar, looks_num_pair, pyFloat,
      LAT_MIN, LAT_MAX, LON_MIN, LON_MAX]
  exact swap_xy_idempotent _ _ h1

theorem dictGet_none_any (kvs : List (String × PyVal)) (k : String) :
    dictGet kvs k = none → kvs.any (fun p => p.1 = k) = false := by
  induction kvs with
  | nil => intro _; rfl
  | cons p ps ih =>
    intro h
    simp only [dictGet, List.find?_cons] at h
    by_cases hp : p.1 = k
    · rw [decide_eq_true hp] at h
      simp at h
    · rw [decide_eq_false hp] at h
      simp only [List.any_cons, decide_eq_false hp, Bool.false_or]
      exact ih h

/-- Counterexample for C5: on a FeatureCollection dict with no
`features` key the function does not return its input unchanged — it
installs `"features": []` (the Python code assigns
`fc["features"] = [...]` even when the key was absent). -/
theorem swap_featurecollection_cex :
    swap_featurecollection (.dict [("type", .str "FeatureCollection" none)]) ≠
      some (.dict [("type", .str "FeatureCollection" none)]) := by
  have heval : swap_featurecollection (.dict [("type", .str "FeatureCollection" none)]) =
      some (.dict [("type", .str "FeatureCollection" none), ("features", .list [])]) := by
    simp [swap_featurecollection, dictGet, pyEqStr, pyIter, featuresList, dictSet]
  rw [heval]
  intro hcon
  simp at hcon

/-- C5 (amended).  Any input that is not a dict with
`type == "FeatureCollection"` is returned unchanged; a FeatureCollection
dict with no `features` key is returned with an empty `features` list
appended (its other entries unchanged), not unchanged. -/
theorem swap_featurecollection_guard :
    (∀ v, isDictVal v = false → swap_featurecollection v = some v) ∧
    (∀ kvs, pyEqStr ((dictGet kvs "type").getD .null) "FeatureCollection" = false →
      swap_featurecollection (.dict kvs) = some (.dict kvs)) ∧
    (∀ kvs, pyEqStr ((dictGet kvs "type").getD .null) "FeatureCollection" = true →
      dictGet kvs "features" = none →
      swap_featurecollection (.dict kvs) =
        some (.dict (kvs ++ [("features", .list [])]))) := by
  refine ⟨?_, ?_, ?_⟩
  · intro v hv
    cases v <;> simp [isDictVal] at hv ⊢ <;> simp [swap_featurecollection]
  · intro kvs h
    simp [swap_featurecollection, h]
  · intro kvs h1 h2
    simp only [swap_featurecollection, h1, h2, Bool.true_eq_false, if_false,
      Option.getD_none, pyIter]
    simp [featuresList, dictSet, dictGet_none_any kvs "features" h2]

/-- Witness for C5's amended statement: a non-FeatureCollection dict and
`None` pass through unchanged; a featureless FeatureCollection gains an
empty `features` entry. -/
theorem swap_featurecollection_guard_witness :
    swap_featurecollection .null = some .null ∧
    swap_featurecollection (.dict [("type", .str "Feature" none)]) =
      some (.dict [("type", .str "Feature" none)]) ∧
    swap_featurecollection (.dict [("type", .str "FeatureCollection" none)]) =
      some (.dict [("type", .str "FeatureCollection" none),
        ("features", .list [])]) := by
  refine ⟨?_, ?_, ?_⟩
  · exact swap_featurecollection_guard.1 .null (by simp [isDictVal])
  · exact swap_featurecollection_guard.2.1 _ (by simp [dictGet, pyEqStr])
  · exact swap_featurecollection_guard.2.2 _ (by simp [dictGet, pyEqStr])
      (by simp [dictGet])

theorem dictGet_some_any (kvs : List (String × PyVal)) (k : String) (v : PyVal)
    (h : dictGet kvs k = some v) : kvs.any (fun p => p.1 = k) = true := by
  induction kvs with
  | nil => simp [dictGet] at h
  | cons p ps ih =>
    simp only [dictGet, List.find?_cons] at h
    by_cases hp : p.1 = k
    · simp [List.any_cons, hp]
    · rw [decide_eq_false hp] at h
      simp only [List.any_cons, decide_eq_false hp, Bool.false_or]
      exact ih h

theorem dictGet_some_ne_nil (kvs : List (String × PyVal)) (k : String) (v : PyVal)
    (h : dictGet kvs k = some v) : kvs.isEmpty = false := by
  cases kvs with
  | nil => simp [dictGet] at h
  | cons p ps => rfl

/-- C6.  When the input FeatureCollection converts successfully, the EE
geometry handed to downstream computation is built from the geometry of
the **first** feature alone — even when further features exist — while
the returned GeoDataFrame keeps **all** the features (with CRS forced to
EPSG:4326). -/
theorem geojson_to_ee_geometry_first_feature
    (kvs fkvs : List (String × PyVal)) (fs : List PyVal) (g : PyVal)
    (hfeats : dictGet kvs "features" = some (.list (.dict fkvs :: fs)))
    (hall : fs.all isDictVal = true)
    (hgeom : dictGet fkvs "geometry" = some g) :
    geojson_to_ee_geometry (.dict kvs) =
      some (⟨g⟩, ⟨.dict fkvs :: fs, some "EPSG:4326"⟩) := by
  have hne := dictGet_some_ne_nil kvs "features" _ hfeats
  have hany := dictGet_some_any kvs "features" _ hfeats
  simp only [geojson_to_ee_geometry, pyTruthy, hne, pyContains, hany,
    Bool.not_false, hfeats, gpdFromFeatures, List.all_cons, isDictVal,
    Bool.true_and, hall, hgeom]
  simp

/-- Witness for C6: a two-feature collection whose first feature has
geometry `.num 1` and whose second has geometry `.num 2` yields the EE
geometry of the first feature and a table of both features. -/
theorem geojson_to_ee_geometry_first_feature_witness :
    geojson_to_ee_geometry (.dict [("features", .list
        [.dict [("geometry", .num 1)], .dict [("geometry", .num 2)]])]) =
      some (⟨.num 1⟩, ⟨[.dict [("geometry", .num 1)], .dict [("geometry", .num 2)]],
        some "EPSG:4326"⟩) := by
  exact geojson_to_ee_geometry_first_feature _ _ _ _
    (by simp [dictGet]) (by simp [isDictVal]) (by simp [dictGet])

/-- C7.  `fetch_region_geometry` is a total function of the HTTP outcome
(the body-wide `try/except` means no exception propagates): an HTTP
failure, a JSON parse failure, a non-200 `meta.code`, or a missing
`data.region` each yield `None`, and on success the region
FeatureCollection is returned only after passing through
`swap_featurecollection`. -/
theorem fetch_region_geometry_spec :
    fetch_region_geometry .fail = none ∧
    fetch_region_geometry .badJson = none ∧
    (∀ kvs mkvs, dictGet kvs "meta" = some (.dict mkvs) →
      pyEqNum ((dictGet mkvs "code").getD .null) 200 = false →
      fetch_region_geometry (.json (.dict kvs)) = none) ∧
    (∀ kvs mkvs dkvs, dictGet kvs "meta" = some (.dict mkvs) →
      pyEqNum ((dictGet mkvs "code").getD .null) 200 = true →
      dictGet kvs "data" = some (.dict dkvs) →
      dictGet dkvs "region" = none →
      fetch_region_geometry (.json (.dict kvs)) = none) ∧
    (∀ kvs mkvs dkvs region, dictGet kvs "meta" = some (.dict mkvs) →
      pyEqNum ((dictGet mkvs "code").getD .null) 200 = true →
      dictGet kvs "data" = some (.dict dkvs) →
      dictGet dkvs "region" = some region →
      pyTruthy region = true →
      pyContains region "features" = some true →
      fetch_region_geometry (.json (.dict kvs)) =
        swap_featurecollection region) := by
  refine ⟨rfl, rfl, ?_, ?_, ?_⟩
  · intro kvs mkvs hmeta hcode
    simp [fetch_region_geometry, hmeta, hcode]
  · intro kvs mkvs dkvs hmeta hcode hdata hregion
    simp [fetch_region_geometry, hmeta, hcode, hdata, hregion, pyTruthy]
  · intro kvs mkvs dkvs region hmeta hcode hdata hregion htr hfeat
    simp [fetch_region_geometry, hmeta, hcode, hdata, hregion, htr, hfeat]

/-- Witness for C7: a successful response body whose region is a
FeatureCollection with an empty feature list is returned normalized. -/
theorem fetch_region_geometry_spec_witness :
    fetch_region_geometry (.json (.dict
      [("meta", .dict [("code", .num 200)]),
       ("data", .dict [("region", .dict
         [("type", .str "FeatureCollection" none), ("features", .list [])])])])) =
      some (.dict [("type", .str "FeatureCollection" none),
        ("features", .list [])]) ∧
    fetch_region_geometry (.json (.dict
      [("meta", .dict [("code", .num 404)])])) = none := by
  constructor
  · have h := fetch_region_geometry_spec.2.2.2.2
      [("meta", .dict [("code", .num 200)]),
       ("data", .dict [("region", .dict
         [("type", .str "FeatureCollection" none), ("features", .list [])])])]
      [("code", .num 200)]
      [("region", .dict [("type", .str "FeatureCollection" none),
        ("features", .list [])])]
      (.dict [("type", .str "FeatureCollection" none), ("features", .list [])])
      (by simp [dictGet]) (by simp [dictGet, pyEqNum]) (by simp [dictGet])
      (by simp [dictGet]) (by simp [pyTruthy]) (by simp [pyContains])
    rw [h]
    simp [swap_featurecollection, dictGet, pyEqStr, pyIter, featuresList, dictSet]
  · exact fetch_region_geometry_spec.2.2.1
      [("meta", .dict [("code", .num 404)])] [("code", .num 404)]
      (by simp [dictGet]) (by simp [dictGet, pyEqNum])

/-- C8.  In administrative-selection mode, choosing
`"-- Gunakan Provinsi --"` at the city level makes the cascade issue
exactly one geometry fetch — `("province", province_code)` — and in
particular never a city-level geometry fetch. -/
theorem admin_use_province_no_city_fetch
    (provData cityData districtData villageData : List (String × String))
    (sel : AdminSelections) (province_code : String)
    (h1 : sel.province ≠ "-- Pilih Provinsi --")
    (h2 : lookupStr provData sel.province = some province_code)
    (h3 : cityData.isEmpty = false)
    (h4 : sel.city = "-- Gunakan Provinsi --") :
    admin_geometry_fetches provData cityData districtData villageData sel =
      [("province", province_code)] ∧
    ∀ c, ("city", c) ∉
      admin_geometry_fetches provData cityData districtData villageData sel := by
  have hpne : provData.isEmpty = false := by
    cases provData with
    | nil => simp [lookupStr] at h2
    | cons p ps => rfl
  have heq : admin_geometry_fetches provData cityData districtData villageData sel =
      [("province", province_code)] := by
    simp [admin_geometry_fetches, hpne, h1, h2, h3, h4]
  refine ⟨heq, ?_⟩
  intro c
  rw [heq]
  simp

/-- Witness for C8: a concrete two-province, two-city dropdown with the
"use province boundary" selection issues only the province fetch. -/
theorem admin_use_province_no_city_fetch_witness :
    admin_geometry_fetches [("ACEH", "11"), ("BALI", "51")]
      [("KOTA A", "1101"), ("KOTA B", "1102")] [] []
      ⟨"ACEH", "-- Gunakan Provinsi --", "", ""⟩ = [("province", "11")] ∧
    ∀ c, ("city", c) ∉ admin_geometry_fetches [("ACEH", "11"), ("BALI", "51")]
      [("KOTA A", "1101"), ("KOTA B", "1102")] [] []
      ⟨"ACEH", "-- Gunakan Provinsi --", "", ""⟩ := by
  exact admin_use_province_no_city_fetch _ _ _ _ _ "11"
    (by simp) (by simp [lookupStr]) (by simp) rfl

/-- C9.  For every composite, `calculate_index` computes exactly the
catalog formula of each of the 8 indices on its catalog bands — the five
normalized-difference indices as `(x − y)/(x + y)`, EVI, SAVI and BSI by
their dedicated band math — returning a single band renamed to the index
name, with no clamping applied; and on a pixel with NIR = 0.4 and
RED = 0.1 the NDVI value is 0.6. -/
theorem calculate_index_formulas :
    (∀ img : EEImage,
      calculate_index img "NDVI" = some ⟨"NDVI",
        (img.pix "B8" - img.pix "B4") / (img.pix "B8" + img.pix "B4")⟩ ∧
      calculate_index img "NDWI" = some ⟨"NDWI",
        (img.pix "B3" - img.pix "B8") / (img.pix "B3" + img.pix "B8")⟩ ∧
      calculate_index img "MNDWI" = some ⟨"MNDWI",
        (img.pix "B3" - img.pix "B11") / (img.pix "B3" + img.pix "B11")⟩ ∧
      calculate_index img "NDBI" = some ⟨"NDBI",
        (img.pix "B11" - img.pix "B8") / (img.pix "B11" + img.pix "B8")⟩ ∧
      calculate_index img "NDMI" = some ⟨"NDMI",
        (img.pix "B8" - img.pix "B11") / (img.pix "B8" + img.pix "B11")⟩ ∧
      calculate_index img "EVI" = some ⟨"EVI",
        5/2 * (img.pix "B8" - img.pix "B4") /
          (img.pix "B8" + 6 * img.pix "B4" - 15/2 * img.pix "B2" + 1)⟩ ∧
      calculate_index img "SAVI" = some ⟨"SAVI",
        3/2 * (img.pix "B8" - img.pix "B4") /
          (img.pix "B8" + img.pix "B4" + 1/2)⟩ ∧
      calculate_index img "BSI" = some ⟨"BSI",
        (img.pix "B11" + img.pix "B4" - img.pix "B8" - img.pix "B2") /
          (img.pix "B11" + img.pix "B4" + img.pix "B8" + img.pix "B2")⟩) ∧
    calculate_index ⟨fun b => if b = "B8" then 2/5 else if b = "B4" then 1/10 else 0⟩
      "NDVI" = some ⟨"NDVI", 3/5⟩ := by
  constructor
  · intro img
    refine ⟨?_, ?_, ?_, ?_, ?_, ?_, ?_, ?_⟩ <;>
      simp [calculate_index, lookupStr, VEGETATION_INDICES,
        EEImage.normalizedDifference, EEImage.select, EEBand.rename,
        EEBand.subtract, EEBand.add, EEBand.addNum, EEBand.multiplyNum,
        EEBand.divide] <;>
      norm_num <;> ring_nf
  · simp [calculate_index, lookupStr, VEGETATION_INDICES,
      EEImage.normalizedDifference, EEImage.select, EEBand.rename]
    norm_num

theorem roundHalfEven_abs (x : Rat) : |(roundHalfEven x : Rat) - x| ≤ 1/2 := by
  unfold roundHalfEven
  have hle : (Int.floor x : Rat) ≤ x := Int.floor_le x
  have hlt : x < (Int.floor x : Rat) + 1 := Int.lt_floor_add_one x
  by_cases c1 : x - (Int.floor x : Rat) < 1/2
  · rw [if_pos c1, abs_sub_comm, abs_of_nonneg (by linarith)]
    linarith
  · rw [if_neg c1]
    by_cases c2 : x - (Int.floor x : Rat) > 1/2
    · rw [if_pos c2]
      push_cast
      rw [abs_of_nonneg (by linarith)]
      linarith
    · rw [if_neg c2]
      have hhalf : x - (Int.floor x : Rat) = 1/2 := by linarith
      by_cases c3 : Int.floor x % 2 = 0
      · rw [if_pos c3, abs_sub_comm, abs_of_nonneg (by linarith)]
        linarith
      · rw [if_neg c3]
        push_cast
        rw [abs_of_nonneg (by linarith)]
        linarith

theorem pyRound_abs (x : Rat) (n : Nat) :
    |pyRound x n - x| ≤ 1 / (2 * 10 ^ n) := by
  have hpow : (0 : Rat) < 10 ^ n := by positivity
  have key := roundHalfEven_abs (x * 10 ^ n)
  unfold pyRound
  have heq : (roundHalfEven (x * 10 ^ n) : Rat) / 10 ^ n - x =
      ((roundHalfEven (x * 10 ^ n) : Rat) - x * 10 ^ n) / 10 ^ n := by
    field_simp
    ring
  rw [heq, abs_div, abs_of_pos hpow, div_le_div_iff hpow (by positivity)]
  calc |(roundHalfEven (x * 10 ^ n) : Rat) - x * 10 ^ n| * (2 * 10 ^ n) ≤
      (1/2) * (2 * 10 ^ n) := by
        apply mul_le_mul_of_nonneg_right key
        positivity
    _ = 1 * 10 ^ n := by ring

theorem lcStatRows_forall2 (legend : List (String × LegendEntry)) (scale : Rat)
    (counts : List (String × Rat)) :
    List.Forall₂ (fun (p : String × Rat) (row : LCRow) =>
        row.pixels = p.2 ∧
        row.area_ha = pyRound (p.2 * (scale * scale) / 10000) 2 ∧
        |row.area_ha - p.2 * (scale * scale) / 10000| ≤ 1/200 ∧
        ∃ e, lookupStr legend p.1 = some e ∧ row.cls = e.label ∧ row.color = e.color)
      (counts.filter (fun p => (lookupStr legend p.1).isSome))
      (lcStatRows legend scale counts) := by
  induction counts with
  | nil => exact List.Forall₂.nil
  | cons p ps ih =>
    cases hl : lookupStr legend p.1 with
    | none =>
      rw [lcStatRows, List.filterMap_cons, hl]
      simpa [List.filter_cons, hl] using ih
    | some e =>
      rw [lcStatRows, List.filterMap_cons, hl]
      simp only [List.filter_cons, hl, Option.isSome_some, if_true]
      refine List.Forall₂.cons ⟨rfl, rfl, ?_, e, hl, rfl, rfl⟩ ih
      have hb := pyRound_abs (p.2 * (scale * scale) / 10000) 2
      calc |pyRound (p.2 * (scale * scale) / 10000) 2 -
          p.2 * (scale * scale) / 10000| ≤ 1 / (2 * 10 ^ 2) := hb
        _ = 1/200 := by norm_num

theorem sum_map_div_mul (rows : List LCRow) (T : Rat) :
    (rows.map (fun r => r.area_ha / T * 100)).sum =
      (rows.map (fun r => r.area_ha)).sum / T * 100 := by
  induction rows with
  | nil => simp
  | cons r rows ih =>
    simp only [List.map_cons, List.sum_cons, ih]
    ring

theorem sum_map_round_abs (ps : List Rat) :
    |(ps.map (fun p => pyRound p 1)).sum - ps.sum| ≤ ps.length * (1/20) := by
  induction ps with
  | nil => simp
  | cons p ps ih =>
    simp only [List.map_cons, List.sum_cons, List.length_cons]
    have h1 := pyRound_abs p 1
    have h2 : (1 : Rat) / (2 * 10 ^ 1) = 1/20 := by norm_num
    rw [h2] at h1
    calc |pyRound p 1 + (ps.map (fun p => pyRound p 1)).sum - (p + ps.sum)|
        = |(pyRound p 1 - p) + ((ps.map (fun p => pyRound p 1)).sum - ps.sum)| := by
          ring_nf
      _ ≤ |pyRound p 1 - p| + |(ps.map (fun p => pyRound p 1)).sum - ps.sum| :=
          abs_add _ _
      _ ≤ 1/20 + ps.length * (1/20) := add_le_add h1 ih
      _ = ((ps.length + 1 : Nat) : Rat) * (1/20) := by
          push_cast
          ring

/-- C10.  The statistics loop reduces Dynamic World at scale 30 and the
two static products at scale 10; a histogram entry produces a row
exactly when its class code is a legend key (unknown codes are silently
dropped), with area `count × scale² / 10000` hectares (stored rounded to
2 decimals, hence within 1/200 ha of the exact value); and the per-row
percentage shares of the total area sum to exactly 100 before the
1-decimal display rounding, hence to 100 ± rows/20 after it. -/
theorem land_cover_statistics_spec :
    (∀ m, (lcStatConfig "Dynamic World" m).scale = 30 ∧
      (lcStatConfig "ESA WorldCover" m).scale = 10 ∧
      (lcStatConfig "ESRI Land Cover" m).scale = 10) ∧
    (∀ legend scale counts,
      List.Forall₂ (fun (p : String × Rat) (row : LCRow) =>
        row.pixels = p.2 ∧
        row.area_ha = pyRound (p.2 * (scale * scale) / 10000) 2 ∧
        |row.area_ha - p.2 * (scale * scale) / 10000| ≤ 1/200 ∧
        ∃ e, lookupStr legend p.1 = some e ∧ row.cls = e.label ∧ row.color = e.color)
      (counts.filter (fun p => (lookupStr legend p.1).isSome))
      (lcStatRows legend scale counts)) ∧
    (∀ legend scale counts,
      counts.all (fun p => (lookupStr legend p.1).isSome) = true →
      0 < lcTotalArea (lcStatRows legend scale counts) →
      ((lcStatRows legend scale counts).map (fun r =>
        r.area_ha / lcTotalArea (lcStatRows legend scale counts) * 100)).sum = 100 ∧
      |(lcPercentages (lcStatRows legend scale counts)).sum - 100| ≤
        (lcStatRows legend scale counts).length * (1/20)) := by
  refine ⟨?_, lcStatRows_forall2, ?_⟩
  · intro m
    refine ⟨?_, rfl, rfl⟩
    simp [lcStatConfig]
  · intro legend scale counts _ htot
    have hTne : lcTotalArea (lcStatRows legend scale counts) ≠ 0 := ne_of_gt htot
    have hsum : ((lcStatRows legend scale counts).map (fun r =>
        r.area_ha / lcTotalArea (lcStatRows legend scale counts) * 100)).sum = 100 := by
      rw [sum_map_div_mul]
      rw [show ((lcStatRows legend scale counts).map (fun r => r.area_ha)).sum =
        lcTotalArea (lcStatRows legend scale counts) from rfl]
      field_simp
    refine ⟨hsum, ?_⟩
    have hperc : lcPercentages (lcStatRows legend scale counts) =
        ((lcStatRows legend scale counts).map (fun r =>
          r.area_ha / lcTotalArea (lcStatRows legend scale counts) * 100)).map
          (fun p => pyRound p 1) := by
      rw [lcPercentages, List.map_map]
      rfl
    rw [hperc]
    have hb := sum_map_round_abs ((lcStatRows legend scale counts).map (fun r =>
      r.area_ha / lcTotalArea (lcStatRows legend scale counts) * 100))
    rw [hsum, List.length_map] at hb
    exact hb

theorem roundHalfEven_intCast (m : Int) : roundHalfEven (m : Rat) = m := by
  unfold roundHalfEven
  rw [Int.floor_intCast]
  norm_num

theorem pyRound_area_100 : pyRound (100 * ((10:Rat) * 10) / 10000) 2 = 1 := by
  have h : (100 * ((10:Rat) * 10) / 10000) * 10 ^ 2 = ((100 : Int) : Rat) := by
    norm_num
  unfold pyRound
  rw [h, roundHalfEven_intCast]
  norm_num

theorem pyRound_area_300 : pyRound (300 * ((10:Rat) * 10) / 10000) 2 = 3 := by
  have h : (300 * ((10:Rat) * 10) / 10000) * 10 ^ 2 = ((300 : Int) : Rat) := by
    norm_num
  unfold pyRound
  rw [h, roundHalfEven_intCast]
  norm_num

/-- Witness for C10: ESA WorldCover at scale 10 with 100 "Trees" pixels
(1 ha) and 300 "Shrubland" pixels (3 ha): the percentage shares sum to
100 within the rounding bound, and Dynamic World's scale is 30. -/
theorem land_cover_statistics_spec_witness :
    (lcStatConfig "Dynamic World" "mode").scale = 30 ∧
    ((lcStatRows ESA_WorldCover_legend 10 [("10", 100), ("20", 300)]).map (fun r =>
      r.area_ha / lcTotalArea (lcStatRows ESA_WorldCover_legend 10
        [("10", 100), ("20", 300)]) * 100)).sum = 100 ∧
    |(lcPercentages (lcStatRows ESA_WorldCover_legend 10
        [("10", 100), ("20", 300)])).sum - 100| ≤
      (lcStatRows ESA_WorldCover_legend 10 [("10", 100), ("20", 300)]).length *
        (1/20) := by
  have hrows : lcStatRows ESA_WorldCover_legend 10 [("10", 100), ("20", 300)] =
      [⟨"Trees", "#006400", 1, 100⟩, ⟨"Shrubland", "#ffbb22", 3, 300⟩] := by
    simp [lcStatRows, lookupStr, ESA_WorldCover_legend, pyRound_area_100,
      pyRound_area_300]
  have htot : 0 < lcTotalArea (lcStatRows ESA_WorldCover_legend 10
      [("10", 100), ("20", 300)]) := by
    rw [hrows]
    norm_num [lcTotalArea]
  have h := land_cover_statistics_spec.2.2 ESA_WorldCover_legend 10
    [("10", 100), ("20", 300)]
    (by simp [lookupStr, ESA_WorldCover_legend]) htot
  exact ⟨(land_cover_statistics_spec.1 "mode").1, h.1, h.2⟩
